import Mathlib

/-!
# Verification of the sales-dashboard reshape/aggregate pipeline

Shallow embedding of the row-classification, wide-to-long reshaping,
aggregation, top-N selection and multi-year merging logic of the
`charts` repository (Streamlit sales dashboard pages), together with
proofs and refutations of the claims made by the specification.

Numeric cell values are modelled as rationals (`ℚ`); the Python code
computes with IEEE doubles, but every claim under study is about exact
bookkeeping (sums, zero-fill, filtering), not rounding.

String primitives (`strip`, `lower`, `upper`, `title`, slicing,
substring search) are re-implemented over `List Char` by structural
recursion so that every definition evaluates inside the kernel; they
mirror the Python/pandas string methods used by the source on the
ASCII data the dashboards process.
-/

/-- ASCII lower-casing of one character (Python `str.lower` on ASCII). -/
def lowerChar (c : Char) : Char :=
  if 65 ≤ c.toNat ∧ c.toNat ≤ 90 then Char.ofNat (c.toNat + 32) else c

/-- ASCII upper-casing of one character (Python `str.upper` on ASCII). -/
def upperChar (c : Char) : Char :=
  if 97 ≤ c.toNat ∧ c.toNat ≤ 122 then Char.ofNat (c.toNat - 32) else c

/-- ASCII letter test, used by the title-casing rule. -/
def isAsciiLetter (c : Char) : Bool :=
  (65 ≤ c.toNat && c.toNat ≤ 90) || (97 ≤ c.toNat && c.toNat ≤ 122)

/-- The whitespace characters stripped by the Python `str.strip()` method. -/
def isPyWS (c : Char) : Bool :=
  c.toNat = 32 || c.toNat = 9 || c.toNat = 10 ||
  c.toNat = 13 || c.toNat = 11 || c.toNat = 12

/-- Python `str.strip()`: drop leading and trailing whitespace. -/
def pyStrip (s : String) : String :=
  ⟨((s.data.dropWhile isPyWS).reverse.dropWhile isPyWS).reverse⟩

/-- Python `str.lower()` (ASCII). -/
def pyLower (s : String) : String := ⟨s.data.map lowerChar⟩

/-- Python `str.upper()` (ASCII). -/
def pyUpper (s : String) : String := ⟨s.data.map upperChar⟩

/-- Python slicing `s[:n]`. -/
def pyTake (s : String) (n : Nat) : String := ⟨s.data.take n⟩

/-- Does the character list `s` start with `pat`? -/
def listStartsWith : List Char → List Char → Bool
  | _, [] => true
  | [], _ :: _ => false
  | a :: as, b :: bs => a == b && listStartsWith as bs

/-- Does the character list `s` contain `pat` as a contiguous run? -/
def containsSeq : List Char → List Char → Bool
  | [], pat => pat.isEmpty
  | s@(_ :: t), pat => listStartsWith s pat || containsSeq t pat

/-- Python `s.startswith(pre)`. -/
def pyStartsWith (s pre : String) : Bool := listStartsWith s.data pre.data

/-- Python `pat in s` (substring containment). -/
def pyContains (s pat : String) : Bool := containsSeq s.data pat.data

/-- Title-casing core: upper-case a letter that follows a non-letter,
lower-case a letter that follows a letter. -/
def titleGo : Bool → List Char → List Char
  | _, [] => []
  | prevAlpha, c :: cs =>
      (if prevAlpha then lowerChar c else upperChar c) ::
        titleGo (isAsciiLetter c) cs

/-- Python `str.title()` (ASCII). -/
def pyTitle (s : String) : String := ⟨titleGo false s.data⟩

/-- The canonical month abbreviations, `MONTH_ORDER` in every page. -/
def MONTH_ORDER : List String :=
  ["Jan", "Feb", "Mar", "Apr", "May", "Jun",
   "Jul", "Aug", "Sep", "Oct", "Nov", "Dec"]

/-- The set `GROUP_HEADERS_EXACT` from `Sales_By_Item.py`: QuickBooks grouping /
subtotal labels that must not be treated as SKUs. -/
def GROUP_HEADERS_EXACT : List String :=
  ["uncategorized", "inventory", "parts", "other charges"]

/-- Function `is_group_or_total_row` from `Sales_By_Item.py` lines 39–62: the Row
Classifier.  Returns `true` when the row label is a grouping bucket,
total/subtotal line, or header echo and must be discarded. -/
def is_group_or_total_row (label : String) : Bool :=
  let s := pyStrip label
  let low := pyLower s
  if s = "" then true
  else if GROUP_HEADERS_EXACT.contains low then true
  else if low = "total" || low = "grand total" then true
  else if pyStartsWith low "total " then true
  else if pyContains low "subtotal" then true
  else if (["items", "item", "name", "description"] : List String).contains low then true
  else false

/-- The row filter of `afc_sales_dashboard/app.py` line 86 (and of
`purchase_orders.py` line 36): a row is kept iff the upper-cased leading
label differs from `"TOTAL"`.  No other label is discarded by these
loaders. -/
def customerTypeRowKept (label : String) : Bool :=
  pyUpper label != "TOTAL"

/-- Read a run of decimal digits from the front of a character list,
returning the accumulated value, the number of digits read, and the
rest of the list. -/
def readDigits : Nat → Nat → List Char → Nat × Nat × List Char
  | acc, n, c :: cs =>
    if 48 ≤ c.toNat ∧ c.toNat ≤ 57 then
      readDigits (acc * 10 + (c.toNat - 48)) (n + 1) cs
    else (acc, n, c :: cs)
  | acc, n, [] => (acc, n, [])

/-- Model of the Python `float(s)` / pandas numeric cell parsing on
finite decimal literals: optional sign, digits with at most one decimal
point (at least one digit), optional exponent part.  Returns `none`
exactly when the string is not such a literal.  (The special literals
`inf`/`nan` and digit-grouping underscores accepted by Python are not
modelled; no dashboard input cell uses them.)  The value is assembled
with `mkRat` so that it evaluates by kernel reduction. -/
def pyFloat? (s : String) : Option ℚ :=
  let cs := s.data
  let signAndRest : Int × List Char :=
    match cs with
    | '+' :: t => (1, t)
    | '-' :: t => (-1, t)
    | t => (1, t)
  let sgn := signAndRest.1
  let (ip, ipn, cs1) := readDigits 0 0 signAndRest.2
  let fracTriple : Nat × Nat × List Char :=
    match cs1 with
    | '.' :: t => readDigits 0 0 t
    | t => (0, 0, t)
  let (fp, fpn, cs2) := fracTriple
  if ipn = 0 ∧ fpn = 0 then none
  else
    let mantNum : Int := sgn * ((ip : Int) * (10 : Int) ^ fpn + (fp : Int))
    let mantDen : Nat := 10 ^ fpn
    match cs2 with
    | [] => some (mkRat mantNum mantDen)
    | e :: t =>
      if e.toNat = 101 ∨ e.toNat = 69 then
        let expSignAndRest : Bool × List Char :=
          match t with
          | '+' :: u => (false, u)
          | '-' :: u => (true, u)
          | u => (false, u)
        let (ev, en, t2) := readDigits 0 0 expSignAndRest.2
        if en = 0 ∨ t2 ≠ [] then none
        else if expSignAndRest.1 then some (mkRat mantNum (mantDen * 10 ^ ev))
        else some (mkRat (mantNum * (10 : Int) ^ ev) mantDen)
      else none

/-- The character replacements of `_clean_money`
(`Sales_By_Item.py` line 83): remove `$` and `,`, turn `(` into `-`,
remove `)`. -/
def moneyStripChars (s : String) : String :=
  ⟨s.data.filterMap (fun c =>
    if c == '$' || c == ',' || c == ')' then none
    else if c == '(' then some '-' else some c)⟩

/-- Function `_clean_money` from `Sales_By_Item.py` lines 77–87: parse a cell as
currency, recovering blank or unparseable cells as `0`.  `none` models
a Python `None` cell. -/
def _clean_money : Option String → ℚ
  | none => 0
  | some raw =>
    let s := pyStrip raw
    if s = "" ∨ s = "-" ∨ s = "—" then 0
    else
      match pyFloat? (moneyStripChars s) with
      | some v => v
      | none => 0

/-- The coercion `pd.to_numeric(·, errors="coerce").fillna(0)` as applied to a cell
in `Sales_By_Customer.py` line 100 and `purchase_orders.py` line 50:
parse the cell as a number, with blank/unparseable cells becoming `0`.
(`pd.read_csv` leaves a blank cell as NaN; `to_numeric` leaves it NaN;
`fillna(0)` turns it into `0`.) -/
def toNumeric0 (s : String) : ℚ := (pyFloat? (pyStrip s)).getD 0

/-- Function `_month3` from `Sales_By_Item.py` lines 90–93: strip, take the
first three characters, title-case, and validate against
`MONTH_ORDER`; invalid labels collapse to `""`. -/
def _month3 (x : String) : String :=
  let s := pyStrip x
  let m := pyTitle (pyTake s 3)
  if MONTH_ORDER.contains m then m else ""

/-- Month-label handling of the melt-based loaders
(`app.py` lines 97–98, `Sales_By_Customer.py` lines 98–99,
`purchase_orders.py` lines 47–48): take the first three characters
verbatim (`...str[:3]`, no case normalization), then coerce to the
`MONTH_ORDER` categorical — a label outside `MONTH_ORDER` becomes NaN,
modelled as `none`. -/
def catMonth (label : String) : Option String :=
  let m := pyTake label 3
  if MONTH_ORDER.contains m then some m else none

/-- Kernel-computable addition on `ℚ` (equal to `+` by `qadd_eq`),
used inside the executable aggregation definitions so that concrete
tables evaluate by `decide`. -/
def qadd (a b : ℚ) : ℚ := mkRat (a.num * b.den + b.num * a.den) (a.den * b.den)

/-- Kernel-computable sum of a list of rationals. -/
def qsum (l : List ℚ) : ℚ := l.foldr qadd 0

/-- A raw CSV table as the loaders see it after `pd.read_csv`:
`header` is the list of column labels after the first (entity-label)
column — the original label of the first column is irrelevant because every
loader immediately renames it — and each row is its leading label cell
plus the remaining cells.  Cells are kept as strings; a missing/blank
cell is `""` (pandas NaN). -/
structure RawTable where
  header : List String
  rows : List (String × List String)
deriving DecidableEq

/-- A normalized long-form fact (one row of the melted table).
`month` is `none` when the month label fell outside `MONTH_ORDER`
(pandas categorical NaN). -/
structure LongRecord where
  entity : String
  month : Option String
  year : String
  measure : ℚ
deriving DecidableEq

/-- The wide-to-long melt of `afc_sales_dashboard/app.py` lines 83–100
on a table whose month columns are numeric: drop rows whose upper-cased
label is `"TOTAL"`, melt every column whose label is not
`CustomerType`/`TOTAL`, truncate the month label to three characters
and coerce to the month categorical, and tag with the year.  Cells are
parsed with `toNumeric0`, which coincides with the `pd.read_csv` column
parse exactly when every cell of the column is numeric or blank (blanks
are NaN, which every pandas sum the page takes treats as `0`, modelled
as `0`); `app.py` applies no `pd.to_numeric`, so this melt is the
app.py loader only under that condition — `reshapeCustomerTypeChecked?`
models the general case. -/
def reshapeCustomerType (t : RawTable) (year : String) : List LongRecord :=
  let kept := t.rows.filter (fun r => customerTypeRowKept r.1)
  let mcols := t.header.enum.filter
    (fun p => !((["CustomerType", "TOTAL"] : List String).contains p.2))
  mcols.flatMap (fun p => kept.map (fun r =>
    { entity := r.1, month := catMonth p.2, year := year,
      measure := toNumeric0 (r.2.getD p.1 "") }))

/-- Is a cell blank or a numeric literal?  Determines the dtype
`pd.read_csv` gives a column. -/
def cellNumericOrBlank (s : String) : Bool :=
  pyStrip s == "" || (pyFloat? (pyStrip s)).isSome

/-- Does `pd.read_csv` type every melted column of the app.py table as
numeric?  Column typing happens at read time, before any row filter, so
all rows count. -/
def appMeltNumericOk (t : RawTable) : Bool :=
  (t.header.enum.filter
    (fun p => !((["CustomerType", "TOTAL"] : List String).contains p.2))).all
    (fun p => t.rows.all (fun r => cellNumericOrBlank (r.2.getD p.1 "")))

/-- The app.py melt as the program actually behaves: `app.py` applies
no `pd.to_numeric`, so when some month-column cell is neither blank nor
a numeric literal the whole column keeps object (string) dtype and the
numeric aggregations the page immediately performs fail — there is no
zero-fill and no numeric record sequence, modelled as `none`.  When
every melted cell is numeric-or-blank the melt proceeds with the
`pd.read_csv`-parsed values. -/
def reshapeCustomerTypeChecked? (t : RawTable) (year : String) :
    Option (List LongRecord) :=
  if appMeltNumericOk t then some (reshapeCustomerType t year) else none

/-- The melt of `purchase_orders.py` lines 31–54: same shape as
`reshapeCustomerType` but the entity column is `Vendor` (stripped after
the melt), the excluded labels are `Vendor`/`TOTAL`/`Total`/`total`,
and the cells go through `pd.to_numeric(...).fillna(0)`. -/
def reshapePurchases (t : RawTable) (year : String) : List LongRecord :=
  let kept := t.rows.filter (fun r => customerTypeRowKept r.1)
  let mcols := t.header.enum.filter
    (fun p => !((["Vendor", "TOTAL", "Total", "total"] : List String).contains p.2))
  mcols.flatMap (fun p => kept.map (fun r =>
    { entity := pyStrip r.1, month := catMonth p.2, year := year,
      measure := toNumeric0 (r.2.getD p.1 "") }))

/-- The alias table `CHLA_ALIASES` from `Sales_By_Customer.py` lines 26–32. -/
def CHLA_ALIASES : List (String × String) :=
  [("0000587428", "Childrens Hospital of Los Angeles"),
   ("0000683567", "Childrens Hospital of Los Angeles"),
   ("0000683569", "Childrens Hospital of Los Angeles"),
   ("Childrens Hospital of Los Angeles - Other", "Childrens Hospital of Los Angeles"),
   ("Total Childrens Hospital of Los Angeles", "Childrens Hospital of Los Angeles")]

/-- Pandas `Series.replace(CHLA_ALIASES)`: exact-match replacement. -/
def aliasReplace (s : String) : String := (CHLA_ALIASES.lookup s).getD s

/-- The customer-label normalization of `Sales_By_Customer.py`
lines 59–64: strip, then collapse CHLA aliases. -/
def normalizeCustomer (s : String) : String := aliasReplace (pyStrip s)

/-- Index of the last column of `l` whose lower-cased label equals
`target` — last, because the Python dict comprehension that maps each
lower-cased column label to its column keeps the final occurrence. -/
def lastIdxOfLower (target : String) (l : List String) : Option Nat :=
  ((l.enum.filter (fun p => pyLower p.2 == target)).getLast?).map (·.1)

/-- The per-file reshape of `load_customer_sales_long`
(`Sales_By_Customer.py` lines 52–103): normalize the customer label
(strip + alias collapse), drop rows whose normalized label upper-cases
to `"TOTAL"`, strip again, then either pass through an already-long
`Month`+`Sales`/`Amount` pair of columns (detected by lower-cased
column names) or melt the wide month grid. -/
def reshapeCustomer (t : RawTable) (year : String) : List LongRecord :=
  let rows1 := t.rows.map (fun r => (normalizeCustomer r.1, r.2))
  let kept0 := rows1.filter (fun r => pyUpper r.1 != "TOTAL")
  let kept := kept0.map (fun r => (pyStrip r.1, r.2))
  let monthIdx := lastIdxOfLower "month" t.header
  let valIdx := match lastIdxOfLower "sales" t.header with
    | some i => some i
    | none => lastIdxOfLower "amount" t.header
  match monthIdx, valIdx with
  | some mi, some vi =>
      kept.map (fun r =>
        { entity := r.1, month := catMonth (r.2.getD mi ""), year := year,
          measure := toNumeric0 (r.2.getD vi "") })
  | _, _ =>
      let mcols := t.header.enum.filter
        (fun p => !((["Customer", "TOTAL", "Total", "total"] : List String).contains p.2))
      mcols.flatMap (fun p => kept.map (fun r =>
        { entity := r.1, month := catMonth p.2, year := year,
          measure := toNumeric0 (r.2.getD p.1 "") }))

/-- Function `load_customer_sales_long` (`Sales_By_Customer.py` lines 49–107):
reshape each per-year table, concatenate, and drop records whose
customer label is empty. -/
def loadCustomerSalesLong (inputs : List (String × RawTable)) : List LongRecord :=
  ((inputs.map (fun q => reshapeCustomer q.2 q.1)).flatten).filter
    (fun r => r.entity != "")

/-- Function `load_purchases_long` (`purchase_orders.py` lines 31–58):
reshape each per-year table, concatenate, and drop records whose vendor
label is empty. -/
def loadPurchasesLong (inputs : List (String × RawTable)) : List LongRecord :=
  ((inputs.map (fun q => reshapePurchases q.2 q.1)).flatten).filter
    (fun r => r.entity != "")

/-- A grouping dimension of the Aggregator. -/
inductive Dim
  | entity
  | month
  | year
deriving DecidableEq

/-- Projection of one dimension out of a record. -/
def dimProj : Dim → LongRecord → String
  | .entity, r => r.entity
  | .month, r => r.month.getD ""
  | .year, r => r.year

/-- pandas `groupby` drops rows whose group key is NaN: when `month`
is among the grouping dimensions, records with an invalid month label
do not take part in the aggregation. -/
def validForDims (dims : List Dim) (r : LongRecord) : Bool :=
  !(dims.contains Dim.month) || r.month.isSome

/-- Composite group key of a record for the chosen dimensions. -/
def keyOfDims (dims : List Dim) (r : LongRecord) : List String :=
  dims.map (fun d => dimProj d r)

/-- All keys of one cartesian product level combination:
`keyProduct [l1, …, ln]` is every `[x1, …, xn]` with `xi ∈ li`. -/
def keyProduct : List (List String) → List (List String)
  | [] => [[]]
  | l :: ls => l.flatMap (fun x => (keyProduct ls).map (fun k => x :: k))

/-- The index level pandas builds for one grouping dimension: for the
`Month` column — a `pd.Categorical` over `MONTH_ORDER` in every loader
— all 12 categories (the era-default `observed=False`); for the plain
string columns (entity, year), the distinct values observed in the
grouped rows. -/
def dimLevel (v : List LongRecord) : Dim → List String
  | Dim.month => MONTH_ORDER
  | d => ((v.map (dimProj d)).dedup)

/-- The group keys of `df.groupby(dims)`: when the categorical `Month`
column is among the keys, pandas (`observed=False`) emits the full
cartesian product of the per-dimension levels — every canonical month,
observed or not, crossed with the observed values of the other
dimensions — and zero-fills the sum of an empty group; otherwise only
the distinct observed key combinations appear. -/
def groupKeys (dims : List Dim) (v : List LongRecord) : List (List String) :=
  if Dim.month ∈ dims then keyProduct (dims.map (dimLevel v))
  else ((v.map (keyOfDims dims)).dedup)

/-- The Aggregator: `df.groupby(dims)[measure].sum()` as written all
over the pages (`app.py` line 134, `Sales_By_Customer.py` lines
265–268, …).  One output row per group key (see `groupKeys` for the
`observed=False` categorical-month behavior), with the measure summed
over the matching records — `0` for an empty group, which is what
pandas `sum` gives.  (pandas additionally sorts the observed levels;
none of the claims under study depends on row order, so observed
levels here appear in occurrence order.) -/
def groupByDims (dims : List Dim) (rs : List LongRecord) : List (List String × ℚ) :=
  let v := rs.filter (validForDims dims)
  (groupKeys dims v).map
    (fun k => (k, qsum ((v.filter (fun r => keyOfDims dims r == k)).map
      LongRecord.measure)))

/-- The Top-N Selector as written in `app.py` lines 120–124 and
`Sales_By_Item.py` lines 283–287: sort entity totals by measure
descending — stably, modelling the deterministic
`sort_values("Sales", ascending=False)` — and keep the first `n`
entity labels. -/
def topNEntities (totals : List (String × ℚ)) (n : Nat) : List String :=
  ((totals.insertionSort (fun a b => b.2 ≤ a.2)).take n).map Prod.fst

/-- A record emitted by `parse_qb_sales_by_item_summary`:
`Item | Year | Month | Qty | Amount`. -/
structure QBRecord where
  item : String
  year : String
  month : String
  qty : ℚ
  amount : ℚ
deriving DecidableEq

/-- The `current` month label after the carry-forward loop of
`parse_qb_sales_by_item_summary` (lines 142–149) has processed
columns `1..c`: a column inherits the most recently seen valid month
header. -/
def monthCarry (hm : List String) : Nat → String
  | 0 => ""
  | c + 1 =>
    let prev := monthCarry hm c
    if c + 1 < hm.length then
      let m := _month3 (hm.getD (c + 1) "")
      if m != "" then m else prev
    else prev

/-- The map `col_month` from `parse_qb_sales_by_item_summary` lines 126–149:
maps a metric-column index to its month label (`""` when the column
belongs to no month).  When the metric header has `1 + (months)*4`
columns, each month header owns a block of 4 metric columns; otherwise
the carry-forward assignment applies. -/
def colMonthStr (hm : List String) (metricLen : Nat) (c : Nat) : String :=
  if c = 0 ∨ ¬ c < metricLen then ""
  else if (metricLen : Int) = 1 + ((hm.length : Int) - 1) * 4 then
    _month3 (hm.getD ((c - 1) / 4 + 1) "")
  else monthCarry hm c

/-- Predicate `is_qty` (line 151): the metric header mentions `qty`. -/
def isQtyHeader (s : String) : Bool := pyContains (pyLower s) "qty"

/-- Predicate `is_amt` (lines 154–156): the metric header mentions `amount` or
`total`. -/
def isAmtHeader (s : String) : Bool :=
  pyContains (pyLower s) "amount" || pyContains (pyLower s) "total"

/-- The map `qty_col` (lines 158–167): for month `m`, the last metric column
assigned to `m` whose header is a quantity header (Python dict
assignment keeps the last write). -/
def qtyCol (hm hmet : List String) (m : String) : Option Nat :=
  (((List.range hmet.length).filter (fun c =>
    colMonthStr hm hmet.length c == m && isQtyHeader (hmet.getD c ""))).getLast?)

/-- The map `amt_col` (lines 158–167): for month `m`, the last metric column
assigned to `m` whose header is an amount header and not a quantity
header (the `elif`). -/
def amtCol (hm hmet : List String) (m : String) : Option Nat :=
  (((List.range hmet.length).filter (fun c =>
    colMonthStr hm hmet.length c == m && !isQtyHeader (hmet.getD c "") &&
      isAmtHeader (hmet.getD c ""))).getLast?)

/-- The fatal-input check of `parse_qb_sales_by_item_summary` line 119:
`if not rows or len(rows) < 3` aborts the page. -/
def qbLoadFatal (rows : List (List String)) : Bool :=
  rows.isEmpty || decide (rows.length < 3)

/-- Does a data row survive the loop guards of
`parse_qb_sales_by_item_summary` lines 170–177: non-empty, and its
stripped leading cell passes the Row Classifier and the extra
`item.upper() == "TOTAL"` check. -/
def qbRowKept (r : List String) : Bool :=
  !r.isEmpty &&
    !(is_group_or_total_row (pyStrip (r.getD 0 "")) ||
      pyUpper (pyStrip (r.getD 0 "")) == "TOTAL")

/-- Read one metric cell of a row (lines 184–185): clean the cell at
the mapped column when that column exists and is within the row,
otherwise `0`. -/
def qbCellAt (r : List String) : Option Nat → ℚ
  | some c => if c < r.length then _clean_money (some (r.getD c "")) else 0
  | none => 0

/-- The record loop of `parse_qb_sales_by_item_summary` lines 169–188:
for each data row that survives the Row Classifier and each canonical
month, read the quantity and amount cells through `_clean_money` and
emit a record when either is nonzero. -/
def parse_qb_records (rows : List (List String)) (year : String) : List QBRecord :=
  let hm := rows.getD 0 []
  let hmet := rows.getD 1 []
  (rows.drop 2).flatMap (fun r =>
    if qbRowKept r then
      MONTH_ORDER.flatMap (fun m =>
        let qty := qbCellAt r (qtyCol hm hmet m)
        let amt := qbCellAt r (amtCol hm hmet m)
        if qty != 0 || amt != 0 then
          [⟨pyStrip (r.getD 0 ""), year, m, qty, amt⟩] else [])
    else [])

/-- Spec-side definition, following the words of the specification:
the sum of the cleaned amount cells in the month (amount) columns of
the kept rows of a QuickBooks item-summary file. -/
def qbKeptAmountCellSum (rows : List (List String)) : ℚ :=
  (((rows.drop 2).filter qbRowKept).map (fun r =>
    (MONTH_ORDER.map (fun m =>
      qbCellAt r (amtCol (rows.getD 0 []) (rows.getD 1 []) m))).sum)).sum

/-- Spec-side definition: the sum of the cleaned quantity cells in the
month (quantity) columns of the kept rows. -/
def qbKeptQtyCellSum (rows : List (List String)) : ℚ :=
  (((rows.drop 2).filter qbRowKept).map (fun r =>
    (MONTH_ORDER.map (fun m =>
      qbCellAt r (qtyCol (rows.getD 0 []) (rows.getD 1 []) m))).sum)).sum

/-- A UTF-8 continuation byte. -/
def IsCont (b : Nat) : Prop := 128 ≤ b ∧ b ≤ 191

instance (b : Nat) : Decidable (IsCont b) := by unfold IsCont; infer_instance

/-- Strict RFC 3629 UTF-8 decoding, structured on a fuel argument so
that it evaluates by kernel reduction; one unit of fuel is spent per
encoded code point, so `fuel = length of the input` always suffices. -/
def utf8DecodeGo : Nat → List Nat → Option (List Nat)
  | _, [] => some []
  | 0, _ :: _ => none
  | fuel + 1, b :: bs =>
    if b < 128 then (utf8DecodeGo fuel bs).map (b :: ·)
    else if 194 ≤ b ∧ b ≤ 223 then
      match bs with
      | b1 :: bs2 =>
        if IsCont b1 then
          (utf8DecodeGo fuel bs2).map (((b - 192) * 64 + (b1 - 128)) :: ·)
        else none
      | [] => none
    else if 224 ≤ b ∧ b ≤ 239 then
      match bs with
      | b1 :: b2 :: bs3 =>
        if (if b = 224 then 160 else 128) ≤ b1 ∧
            b1 ≤ (if b = 237 then 159 else 191) ∧ IsCont b2 then
          (utf8DecodeGo fuel bs3).map
            (((b - 224) * 4096 + (b1 - 128) * 64 + (b2 - 128)) :: ·)
        else none
      | _ => none
    else if 240 ≤ b ∧ b ≤ 244 then
      match bs with
      | b1 :: b2 :: b3 :: bs4 =>
        if (if b = 240 then 144 else 128) ≤ b1 ∧
            b1 ≤ (if b = 244 then 143 else 191) ∧ IsCont b2 ∧ IsCont b3 then
          (utf8DecodeGo fuel bs4).map
            (((b - 240) * 262144 + (b1 - 128) * 4096 +
              (b2 - 128) * 64 + (b3 - 128)) :: ·)
        else none
      | _ => none
    else none

/-- Strict UTF-8 decoding of a byte list into code points (`none` on
any ill-formed sequence), modelling the Python `utf-8` codec. -/
def utf8Decode? (bs : List Nat) : Option (List Nat) :=
  utf8DecodeGo bs.length bs

/-- The Python `utf-8-sig` codec: strip a leading BOM if present, then
decode as UTF-8. -/
def utf8SigDecode? (bs : List Nat) : Option (List Nat) :=
  match bs with
  | 239 :: 187 :: 191 :: rest => utf8Decode? rest
  | _ => utf8Decode? bs

/-- One byte of Windows-1252: identity below `0x80` and from `0xA0`,
the standard table in `0x80–0x9F`, undefined (decode error) at
`0x81, 0x8D, 0x8F, 0x90, 0x9D`. -/
def cp1252Byte? (b : Nat) : Option Nat :=
  if b < 128 then some b
  else if 160 ≤ b ∧ b ≤ 255 then some b
  else match b with
    | 128 => some 8364 | 130 => some 8218 | 131 => some 402
    | 132 => some 8222 | 133 => some 8230 | 134 => some 8224
    | 135 => some 8225 | 136 => some 710 | 137 => some 8240
    | 138 => some 352 | 139 => some 8249 | 140 => some 338
    | 142 => some 381 | 145 => some 8216 | 146 => some 8217
    | 147 => some 8220 | 148 => some 8221 | 149 => some 8226
    | 150 => some 8211 | 151 => some 8212 | 152 => some 732
    | 153 => some 8482 | 154 => some 353 | 155 => some 8250
    | 156 => some 339 | 158 => some 382 | 159 => some 376
    | _ => none

/-- The Python `cp1252` codec over a byte list. -/
def cp1252Decode? : List Nat → Option (List Nat)
  | [] => some []
  | b :: bs =>
    match cp1252Byte? b, cp1252Decode? bs with
    | some c, some cs => some (c :: cs)
    | _, _ => none

/-- The Python `latin1` codec: every byte decodes to itself. -/
def latin1Decode (bs : List Nat) : List Nat := bs

/-- The ordered encoding-fallback chain of
`Sales_By_Customer.py` lines 34–41 (`read_csv_safe`) and
`Sales_By_Item.py` lines 110–117: try `utf-8`, `utf-8-sig`, `cp1252`,
`latin1` in order and return the first successful decode. -/
def fallbackDecode (bs : List Nat) : Option (List Nat) :=
  match utf8Decode? bs with
  | some s => some s
  | none =>
    match utf8SigDecode? bs with
    | some s => some s
    | none =>
      match cp1252Decode? bs with
      | some s => some s
      | none => some (latin1Decode bs)

/-- The decode step of `afc_sales_dashboard/app.py` line 84 and
`purchase_orders.py` line 34: a bare `pd.read_csv(path)`, which
attempts UTF-8 only — there is no fallback chain in these loaders. -/
def appLoaderDecode (bs : List Nat) : Option (List Nat) := utf8Decode? bs

/-- Spec-side definition, following the words of the specification
(the sum of all numeric cells in the month columns of kept rows), for
the customer-type loader: rows kept by the row filter of the loader, month
columns identified per the spec as every column other than the entity
and total columns. -/
def keptCellSumCustomerType (t : RawTable) : ℚ :=
  ((t.rows.filter (fun r => customerTypeRowKept r.1)).map (fun r =>
    ((t.header.enum.filter
        (fun p => !((["CustomerType", "TOTAL"] : List String).contains p.2))).map
      (fun p => toNumeric0 (r.2.getD p.1 ""))).sum)).sum

/-- Spec-side definition of the kept-cell sum for the purchases
loader. -/
def keptCellSumPurchases (t : RawTable) : ℚ :=
  ((t.rows.filter (fun r => customerTypeRowKept r.1)).map (fun r =>
    ((t.header.enum.filter
        (fun p => !((["Vendor", "TOTAL", "Total", "total"] : List String).contains p.2))).map
      (fun p => toNumeric0 (r.2.getD p.1 ""))).sum)).sum

/-- The two-year fixture of the claim: year 2023 sums to 1000 across
three entities, year 2024 to 1500. -/
def c7Fixture : List LongRecord :=
  [⟨"A", some "Jan", "2023", 400⟩, ⟨"B", some "Feb", "2023", 350⟩,
   ⟨"C", some "Mar", "2023", 250⟩, ⟨"A", some "Jan", "2024", 900⟩,
   ⟨"B", some "Feb", "2024", 600⟩]

/-- A customer table with one month column and two CHLA rows: one
ordinary alias row and one raw `"Total Childrens Hospital of Los
Angeles"` row. -/
def chlaTable : RawTable :=
  ⟨["Jan"],
   [("Childrens Hospital of Los Angeles - Other", ["100"]),
    ("Total Childrens Hospital of Los Angeles", ["50"])]⟩

/-- A wide table with one genuine month column and one non-month
column `"Q1"`. -/
def c4Table : RawTable := ⟨["Jan", "Q1"], [("Acme", ["10", "50"])]⟩

/-- An app.py-style table whose cells are all numeric or blank. -/
def c2Table : RawTable :=
  ⟨["Jan", "Feb"], [("Acme", ["10", ""]), ("TOTAL", ["99", "7"])]⟩

/-- Fixture for the QuickBooks block format: row 0 holds month headers
(`1 + months` columns including a trailing `TOTAL`), row 1 holds
`1 + months*4` metric headers. -/
def qbBlockRows : List (List String) :=
  [["", "Jan 23", "Q1", "TOTAL"],
   ["", "Qty", "Amount", "x", "y", "Qty", "Amount", "x", "y",
    "Qty", "Amount", "x", "y"],
   ["Widget", "5", "100", "a", "b", "7", "700", "c", "d", "12", "800", "e", "f"]]

/-- Fixture for the carry-forward variant (metric header does not
divide into 4-column blocks). -/
def qbCarryRows : List (List String) :=
  [["", "Jan 23", "Q1"], ["", "Qty", "Amount"], ["W", "5", "700"]]

theorem qadd_eq (a b : ℚ) : qadd a b = a + b := by
  have hb : (a.den : ℤ) ≠ 0 := Int.natCast_ne_zero.mpr a.den_nz
  have hd : (b.den : ℤ) ≠ 0 := Int.natCast_ne_zero.mpr b.den_nz
  rw [qadd, Rat.mkRat_eq_divInt]
  conv_rhs => rw [← Rat.num_divInt_den a, ← Rat.num_divInt_den b]
  rw [Rat.divInt_add_divInt _ _ hb hd]
  push_cast
  ring_nf

theorem qsum_eq (l : List ℚ) : qsum l = l.sum := by
  induction l with
  | nil => rfl
  | cons a t ih => simp [qsum, List.foldr_cons, qadd_eq, List.sum_cons] at ih ⊢; rw [ih]

theorem list_sum_comm {α β : Type} (l1 : List α) (l2 : List β) (f : α → β → ℚ) :
    (l1.map (fun a => (l2.map (f a)).sum)).sum
      = (l2.map (fun b => (l1.map (fun a => f a b)).sum)).sum := by
  induction l1 with
  | nil => simp
  | cons a t ih => simp [List.sum_map_add, ih]

theorem measure_mk (e : String) (m : Option String) (y : String) (q : ℚ) :
    (LongRecord.mk e m y q).measure = q := rfl

theorem reshapeCustomerType_sum (t : RawTable) (y : String) :
    ((reshapeCustomerType t y).map LongRecord.measure).sum
      = keptCellSumCustomerType t := by
  unfold reshapeCustomerType keptCellSumCustomerType
  rw [List.map_flatMap, List.flatMap_def, List.sum_flatten]
  simp only [List.map_map, Function.comp_def, measure_mk]
  with_reducible exact list_sum_comm _ _ (fun (p : Nat × String) (r : String × List String) => toNumeric0 (r.2.getD p.1 ""))

theorem reshapePurchases_sum (t : RawTable) (y : String) :
    ((reshapePurchases t y).map LongRecord.measure).sum
      = keptCellSumPurchases t := by
  unfold reshapePurchases keptCellSumPurchases
  rw [List.map_flatMap, List.flatMap_def, List.sum_flatten]
  simp only [List.map_map, Function.comp_def, measure_mk]
  with_reducible exact list_sum_comm _ _ (fun (p : Nat × String) (r : String × List String) => toNumeric0 (r.2.getD p.1 ""))

/-- C1 (counterexample): the claim extends the discard set of the Row
Classifier to the row-filtering step of the loader of every page, but the
loaders of `app.py`, `Sales_By_Customer.py` and `purchase_orders.py`
drop only rows whose upper-cased label is exactly `"TOTAL"`: the label
`"Grand Total"`, which the claim requires every loader to discard (and
which `is_group_or_total_row` does discard), is kept by those
loaders. -/
theorem C1_counterexample :
    is_group_or_total_row "Grand Total" = true ∧
    customerTypeRowKept "Grand Total" = true := by decide

/-- C1 (amended): `is_group_or_total_row` — the Row Classifier of
`Sales_By_Item.py` — discards every label in
`{"", "  ", "Total", "TOTAL", "Grand Total", "Subtotal - Parts",
"total widgets"}`, as well as grouping-bucket names and header-echo
tokens, and keeps `"Acme Corp"`; the loaders of the other pages discard
exactly the labels whose upper-cased form is `"TOTAL"` and keep
everything else, including `"Grand Total"`. -/
theorem C1_row_classifier :
    is_group_or_total_row "" = true ∧
    is_group_or_total_row "  " = true ∧
    is_group_or_total_row "Total" = true ∧
    is_group_or_total_row "TOTAL" = true ∧
    is_group_or_total_row "Grand Total" = true ∧
    is_group_or_total_row "Subtotal - Parts" = true ∧
    is_group_or_total_row "total widgets" = true ∧
    is_group_or_total_row "Inventory" = true ∧
    is_group_or_total_row "Item" = true ∧
    is_group_or_total_row "Acme Corp" = false ∧
    customerTypeRowKept "Total" = false ∧
    customerTypeRowKept "TOTAL" = false ∧
    customerTypeRowKept "Grand Total" = true ∧
    customerTypeRowKept "Acme Corp" = true := by decide

theorem sum_map_ite_zero {α : Type} (l : List α) (p : α → Bool) (f : α → ℚ) :
    (l.map (fun x => if p x then f x else 0)).sum = ((l.filter p).map f).sum := by
  induction l with
  | nil => rfl
  | cons a t ih => by_cases hp : p a <;> simp [hp, ih, List.filter_cons]

theorem sum_flatMap_q {α β : Type} (l : List α) (F : α → List β) (g : β → ℚ) :
    ((l.flatMap F).map g).sum = (l.map (fun a => ((F a).map g).sum)).sum := by
  rw [List.map_flatMap, List.flatMap_def, List.sum_flatten, List.map_map]
  simp [Function.comp_def]

theorem qb_months_amount_sum (r : List String) (y : String)
    (hm hmet : List String) : ∀ ms : List String,
    ((ms.flatMap (fun m =>
        if qbCellAt r (qtyCol hm hmet m) != 0 ||
            qbCellAt r (amtCol hm hmet m) != 0 then
          [(⟨pyStrip (r.getD 0 ""), y, m, qbCellAt r (qtyCol hm hmet m),
            qbCellAt r (amtCol hm hmet m)⟩ : QBRecord)]
        else [])).map QBRecord.amount).sum
      = (ms.map (fun m => qbCellAt r (amtCol hm hmet m))).sum
  | [] => rfl
  | m :: ms => by
    simp only [List.flatMap_cons, List.map_append, List.sum_append,
      List.map_cons, List.sum_cons]
    rw [qb_months_amount_sum r y hm hmet ms]
    by_cases hq : (qbCellAt r (qtyCol hm hmet m) != 0 ||
        qbCellAt r (amtCol hm hmet m) != 0)
    · simp [hq]
    · have h0 : qbCellAt r (qtyCol hm hmet m) = 0 ∧
          qbCellAt r (amtCol hm hmet m) = 0 := by
        simpa only [Bool.or_eq_true, bne_iff_ne, not_or,
          Decidable.not_not] using hq
      simp [hq, h0.1, h0.2]

theorem qb_months_qty_sum (r : List String) (y : String)
    (hm hmet : List String) : ∀ ms : List String,
    ((ms.flatMap (fun m =>
        if qbCellAt r (qtyCol hm hmet m) != 0 ||
            qbCellAt r (amtCol hm hmet m) != 0 then
          [(⟨pyStrip (r.getD 0 ""), y, m, qbCellAt r (qtyCol hm hmet m),
            qbCellAt r (amtCol hm hmet m)⟩ : QBRecord)]
        else [])).map QBRecord.qty).sum
      = (ms.map (fun m => qbCellAt r (qtyCol hm hmet m))).sum
  | [] => rfl
  | m :: ms => by
    simp only [List.flatMap_cons, List.map_append, List.sum_append,
      List.map_cons, List.sum_cons]
    rw [qb_months_qty_sum r y hm hmet ms]
    by_cases hq : (qbCellAt r (qtyCol hm hmet m) != 0 ||
        qbCellAt r (amtCol hm hmet m) != 0)
    · simp [hq]
    · have h0 : qbCellAt r (qtyCol hm hmet m) = 0 ∧
          qbCellAt r (amtCol hm hmet m) = 0 := by
        simpa only [Bool.or_eq_true, bne_iff_ne, not_or,
          Decidable.not_not] using hq
      simp [hq, h0.1, h0.2]

theorem parse_qb_amount_sum (rows : List (List String)) (y : String) :
    ((parse_qb_records rows y).map QBRecord.amount).sum
      = qbKeptAmountCellSum rows := by
  unfold parse_qb_records qbKeptAmountCellSum
  dsimp only
  rw [sum_flatMap_q]
  have hrow : ∀ r ∈ rows.drop 2,
      ((if qbRowKept r then
          MONTH_ORDER.flatMap (fun m =>
            if qbCellAt r (qtyCol (rows.getD 0 []) (rows.getD 1 []) m) != 0 ||
                qbCellAt r (amtCol (rows.getD 0 []) (rows.getD 1 []) m) != 0 then
              [(⟨pyStrip (r.getD 0 ""), y, m,
                qbCellAt r (qtyCol (rows.getD 0 []) (rows.getD 1 []) m),
                qbCellAt r (amtCol (rows.getD 0 []) (rows.getD 1 []) m)⟩ : QBRecord)]
            else [])
        else []).map QBRecord.amount).sum
      = if qbRowKept r then
          (MONTH_ORDER.map (fun m =>
            qbCellAt r (amtCol (rows.getD 0 []) (rows.getD 1 []) m))).sum
        else 0 := by
    intro r _
    by_cases hk : qbRowKept r
    · simp only [if_pos hk]
      exact qb_months_amount_sum r y (rows.getD 0 []) (rows.getD 1 []) MONTH_ORDER
    · simp [hk]
  rw [List.map_congr_left hrow]
  exact sum_map_ite_zero _ _ _

theorem parse_qb_qty_sum (rows : List (List String)) (y : String) :
    ((parse_qb_records rows y).map QBRecord.qty).sum
      = qbKeptQtyCellSum rows := by
  unfold parse_qb_records qbKeptQtyCellSum
  dsimp only
  rw [sum_flatMap_q]
  have hrow : ∀ r ∈ rows.drop 2,
      ((if qbRowKept r then
          MONTH_ORDER.flatMap (fun m =>
            if qbCellAt r (qtyCol (rows.getD 0 []) (rows.getD 1 []) m) != 0 ||
                qbCellAt r (amtCol (rows.getD 0 []) (rows.getD 1 []) m) != 0 then
              [(⟨pyStrip (r.getD 0 ""), y, m,
                qbCellAt r (qtyCol (rows.getD 0 []) (rows.getD 1 []) m),
                qbCellAt r (amtCol (rows.getD 0 []) (rows.getD 1 []) m)⟩ : QBRecord)]
            else [])
        else []).map QBRecord.qty).sum
      = if qbRowKept r then
          (MONTH_ORDER.map (fun m =>
            qbCellAt r (qtyCol (rows.getD 0 []) (rows.getD 1 []) m))).sum
        else 0 := by
    intro r _
    by_cases hk : qbRowKept r
    · simp only [if_pos hk]
      exact qb_months_qty_sum r y (rows.getD 0 []) (rows.getD 1 []) MONTH_ORDER
    · simp [hk]
  rw [List.map_congr_left hrow]
  exact sum_map_ite_zero _ _ _

/-- C2 (counterexample): the claim requires a blank or unparseable
cell to count as zero in the emitted records of every reshaper, but
the `app.py` loader applies no `pd.to_numeric`: a month column holding
the unparseable cell `"abc"` keeps object (string) dtype after
`pd.read_csv`, the numeric aggregations the page immediately performs
fail, and no zero-filled numeric record sequence exists at all. -/
theorem C2_counterexample :
    reshapeCustomerTypeChecked? ⟨["Jan"], [("Acme", ["abc"])]⟩ "2023"
      = none := by decide

/-- C2 (amended): Conservation of total.  For the vendor melt of
`purchase_orders.py` (explicit `to_numeric(...).fillna(0)`), the sum
of the emitted measures equals the sum of the parsed cells in the kept
rows of the month columns for every raw table, blanks and unparseable
cells counting as zero.  For the `app.py` melt, which applies no
coercion, the same conservation holds exactly on the tables whose
month-column cells are all numeric or blank (blanks counting as zero);
on any other table the loader produces no numeric records.  For the
`Sales_By_Item` parser, the summed `Amount` (resp. `Qty`) of the
emitted records equals the sum of the cleaned amount (resp. quantity)
cells of the kept rows over the mapped month columns. -/
theorem C2_conservation_of_total :
    (∀ (t : RawTable) (y : String) (l : List LongRecord),
        reshapeCustomerTypeChecked? t y = some l →
        (l.map LongRecord.measure).sum = keptCellSumCustomerType t) ∧
    (∀ (t : RawTable) (y : String),
        ((reshapePurchases t y).map LongRecord.measure).sum
          = keptCellSumPurchases t) ∧
    (∀ (rows : List (List String)) (y : String),
        ((parse_qb_records rows y).map QBRecord.amount).sum
            = qbKeptAmountCellSum rows ∧
        ((parse_qb_records rows y).map QBRecord.qty).sum
            = qbKeptQtyCellSum rows) := by
  refine ⟨?_, fun t y => reshapePurchases_sum t y,
    fun rows y => ⟨parse_qb_amount_sum rows y, parse_qb_qty_sum rows y⟩⟩
  intro t y l h
  unfold reshapeCustomerTypeChecked? at h
  split at h
  · obtain rfl : reshapeCustomerType t y = l := by injection h
    exact reshapeCustomerType_sum t y
  · exact absurd h (by simp)

/-- Witness for C2: the numeric-or-blank table goes through the
checked app.py melt, and the block-format QuickBooks fixture goes
through the parser conservation. -/
theorem C2_witness :
    ((reshapeCustomerType c2Table "2023").map LongRecord.measure).sum
        = keptCellSumCustomerType c2Table ∧
    ((parse_qb_records qbBlockRows "2023").map QBRecord.amount).sum
        = qbKeptAmountCellSum qbBlockRows :=
  ⟨C2_conservation_of_total.1 c2Table "2023"
      (reshapeCustomerType c2Table "2023") (by decide),
   (C2_conservation_of_total.2.2 qbBlockRows "2023").1⟩

/-- C5 (counterexample): the claim asserts that for every input cell
the parse strips currency symbols, thousands separators and
parenthesized-negative notation, and cites the `Sales` coercion of
`Sales_By_Customer.py` as one of its sources, but `pd.to_numeric`
strips nothing: `"(100)"`, `"$100"` and `"1,234"` all coerce to NaN
and are zero-filled there, while only `_clean_money` in
`Sales_By_Item.py` performs the stripping. -/
theorem C5_counterexample :
    toNumeric0 "(100)" = 0 ∧
    toNumeric0 "$100" = 0 ∧
    toNumeric0 "1,234" = 0 ∧
    _clean_money (some "(100)") = -100 := by decide

/-- C5 (amended): cell parsing never raises anywhere and recovers
locally — in the embedding both cell parsers are total functions;
every blank or unparseable cell yields `0` rather than an error.  Only
the `Sales_By_Item` parser `_clean_money` strips currency symbols,
thousands separators and parenthesized negatives
(`"(100)" ↦ -100`, `"$1,234.56" ↦ 1234.56`); the `pd.to_numeric`
coercion of the other loaders parses plain numeric literals only, so a
symbol-bearing cell is not stripped but recovered as `0` like any
other unparseable cell. -/
theorem C5_cell_parsing :
    (∀ s : String, pyFloat? (moneyStripChars (pyStrip s)) = none →
        _clean_money (some s) = 0) ∧
    (∀ s : String, pyFloat? (pyStrip s) = none → toNumeric0 s = 0) ∧
    (_clean_money none = 0 ∧
     _clean_money (some "(100)") = -100 ∧
     _clean_money (some "$1,234.56") = mkRat 123456 100 ∧
     _clean_money (some "") = 0 ∧
     _clean_money (some "  ") = 0 ∧
     _clean_money (some "-") = 0 ∧
     _clean_money (some "—") = 0 ∧
     toNumeric0 "" = 0 ∧
     toNumeric0 "  " = 0 ∧
     toNumeric0 "12.5" = mkRat 25 2) := by
  refine ⟨fun s h => ?_, fun s h => by simp [toNumeric0, h], by decide⟩
  by_cases hb : pyStrip s = "" ∨ pyStrip s = "-" ∨ pyStrip s = "—"
  · simp [_clean_money, hb]
  · simp [_clean_money, hb, h]

/-- Witness for C5: the unparseable cell `"N/A"` is recovered as `0`
by both parsers, through the two universally quantified parts of
`C5_cell_parsing`. -/
theorem C5_witness :
    _clean_money (some "N/A") = 0 ∧ toNumeric0 "N/A" = 0 :=
  ⟨C5_cell_parsing.1 "N/A" (by decide),
   C5_cell_parsing.2.1 "N/A" (by decide)⟩

/-- C3: Top-N stability — the selected top-`n` entity list is a
prefix of the same stable descending sort as the top-`(n+1)` list and
hence contained in it, and its length is `min n (number of entities)`
for every `n`: the selection truncates to the full entity list when
fewer than `n` entities exist, as the concrete instance (`n = 5` over
3 entities, with a tie broken by input order) shows. -/
theorem C3_topn_selector :
    (∀ (totals : List (String × ℚ)) (n : Nat),
        topNEntities totals n ⊆ topNEntities totals (n + 1)) ∧
    (∀ (totals : List (String × ℚ)) (n : Nat),
        (topNEntities totals n).length = min n totals.length) ∧
    topNEntities [("A", 5), ("B", 9), ("C", 5)] 5 = ["B", "A", "C"] := by
  refine ⟨?_, ?_, by decide⟩
  · intro totals n
    unfold topNEntities
    apply List.map_subset
    intro a ha
    have ht : (totals.insertionSort (fun a b => b.2 ≤ a.2)).take n
        = ((totals.insertionSort (fun a b => b.2 ≤ a.2)).take (n + 1)).take n := by
      rw [List.take_take]
      congr 1
      omega
    rw [ht] at ha
    exact List.take_subset _ _ ha
  · intro totals n
    simp [topNEntities, List.length_take, List.length_insertionSort]

theorem flatMap_perm_congr {α β : Type} {f g : α → List β}
    (hfg : ∀ x, List.Perm (f x) (g x)) :
    ∀ l : List α, List.Perm (l.flatMap f) (l.flatMap g)
  | [] => List.Perm.refl _
  | a :: t => by
    simp only [List.flatMap_cons]
    exact (hfg a).append (flatMap_perm_congr hfg t)

theorem keyProduct_perm {ls1 ls2 : List (List String)}
    (h : List.Forall₂ (fun a b => List.Perm a b) ls1 ls2) :
    List.Perm (keyProduct ls1) (keyProduct ls2) := by
  induction h with
  | nil => exact List.Perm.refl _
  | cons hab hrest ih =>
    simp only [keyProduct]
    exact (flatMap_perm_congr (fun x => ih.map _) _).trans
      (hab.flatMap_right _)

theorem keyProduct_nodup : ∀ {ls : List (List String)},
    (∀ l ∈ ls, l.Nodup) → (keyProduct ls).Nodup := by
  intro ls h
  induction ls with
  | nil => simp [keyProduct]
  | cons a as ih =>
    simp only [keyProduct]
    rw [List.nodup_flatMap]
    constructor
    · intro x _
      exact (ih (fun l hl => h l (List.mem_cons_of_mem _ hl))).map
        (fun k1 k2 he => by injection he)
    · have ha : a.Nodup := h a (List.mem_cons_self _ _)
      refine ha.imp ?_
      intro x y hxy z hz1 hz2
      simp only [List.mem_map] at hz1 hz2
      obtain ⟨k1, _, hk1⟩ := hz1
      obtain ⟨k2, _, hk2⟩ := hz2
      rw [← hk1] at hk2
      injection hk2 with h1 _
      exact hxy h1.symm

theorem groupKeys_nodup (dims : List Dim) (v : List LongRecord) :
    (groupKeys dims v).Nodup := by
  unfold groupKeys
  by_cases hm : Dim.month ∈ dims
  · rw [if_pos hm]
    apply keyProduct_nodup
    intro l hl
    simp only [List.mem_map] at hl
    obtain ⟨d, _, hd⟩ := hl
    subst hd
    cases d
    · exact List.nodup_dedup _
    · show MONTH_ORDER.Nodup
      decide
    · exact List.nodup_dedup _
  · rw [if_neg hm]
    exact List.nodup_dedup _

theorem dimLevel_perm {v1 v2 : List LongRecord} (hv : List.Perm v1 v2)
    (d : Dim) : List.Perm (dimLevel v1 d) (dimLevel v2 d) := by
  cases d
  · exact (hv.map _).dedup
  · exact List.Perm.refl _
  · exact (hv.map _).dedup

theorem groupKeys_perm (dims : List Dim) {v1 v2 : List LongRecord}
    (hv : List.Perm v1 v2) :
    List.Perm (groupKeys dims v1) (groupKeys dims v2) := by
  unfold groupKeys
  by_cases hm : Dim.month ∈ dims
  · rw [if_pos hm, if_pos hm]
    apply keyProduct_perm
    clear hm
    induction dims with
    | nil => exact List.Forall₂.nil
    | cons d ds ih => exact List.Forall₂.cons (dimLevel_perm hv d) ih
  · rw [if_neg hm, if_neg hm]
    exact (hv.map _).dedup

theorem groupByDims_perm (dims : List Dim) {l1 l2 : List LongRecord}
    (h : List.Perm l1 l2) :
    List.Perm (groupByDims dims l1) (groupByDims dims l2) := by
  unfold groupByDims
  have hv : List.Perm (l1.filter (validForDims dims))
      (l2.filter (validForDims dims)) := h.filter _
  have hk := groupKeys_perm dims hv
  have heq : (groupKeys dims (l1.filter (validForDims dims))).map
        (fun k => (k, qsum (((l1.filter (validForDims dims)).filter
          (fun r => keyOfDims dims r == k)).map LongRecord.measure)))
      = (groupKeys dims (l1.filter (validForDims dims))).map
        (fun k => (k, qsum (((l2.filter (validForDims dims)).filter
          (fun r => keyOfDims dims r == k)).map LongRecord.measure))) :=
    List.map_congr_left (fun k _ => by
      rw [qsum_eq, qsum_eq, ((hv.filter _).map _).sum_eq])
  dsimp only
  rw [heq]
  exact hk.map _

/-- C7 (counterexample): the pages group on the categorical `Month`
column built over `MONTH_ORDER`, and pandas with its era-default
`observed=False` emits one zero-filled row per unobserved month — a
one-record Dataset grouped by year and month yields 12 rows, not the
single row per combination present in the data that the claim
asserts. -/
theorem C7_counterexample :
    (groupByDims [Dim.year, Dim.month]
      [⟨"A", some "Jan", "2023", 10⟩]).length = 12 := by decide

/-- C7 (amended): grouping by any subset of dimensions produces a
table with no duplicate key, whose value at each key is the measure
summed over the matching records (`0` for an empty group); when the
categorical `month` dimension is not among the keys, the keys are
exactly the distinct combinations present in the data, and when it is,
the month level is expanded to all 12 canonical months
(`observed=False`), zero-filling the unobserved ones. -/
theorem C7_aggregator_correct (dims : List Dim) (rs : List LongRecord) :
    ((groupByDims dims rs).map Prod.fst).Nodup ∧
    (Dim.month ∉ dims → ∀ k : List String,
        k ∈ (groupByDims dims rs).map Prod.fst ↔
        k ∈ (rs.filter (validForDims dims)).map (keyOfDims dims)) ∧
    (∀ k s, (k, s) ∈ groupByDims dims rs →
        s = (((rs.filter (validForDims dims)).filter
              (fun r => keyOfDims dims r == k)).map LongRecord.measure).sum) := by
  refine ⟨?_, ?_, ?_⟩
  · unfold groupByDims
    simp only [List.map_map, Function.comp_def]
    simpa using groupKeys_nodup dims _
  · intro hm k
    unfold groupByDims
    simp only [List.map_map, Function.comp_def, groupKeys, if_neg hm]
    simpa using List.mem_dedup
  · intro k s hmem
    unfold groupByDims at hmem
    simp only [List.mem_map] at hmem
    obtain ⟨k', _, hk⟩ := hmem
    obtain ⟨hk1, hk2⟩ := Prod.mk.injEq .. ▸ hk
    subst hk1
    rw [← hk2, qsum_eq]

/-- Witness for C7: on the two-year fixture, grouping by year (a
non-categorical key) gives exactly the observed combinations with the
fixture totals 1000 and 1500. -/
theorem C7_witness :
    (∀ k : List String,
        k ∈ (groupByDims [Dim.year] c7Fixture).map Prod.fst ↔
        k ∈ (c7Fixture.filter (validForDims [Dim.year])).map
          (keyOfDims [Dim.year])) ∧
    (1000 : ℚ) = (((c7Fixture.filter (validForDims [Dim.year])).filter
        (fun r => keyOfDims [Dim.year] r == ["2023"])).map
          LongRecord.measure).sum ∧
    groupByDims [Dim.year] c7Fixture = [(["2023"], 1000), (["2024"], 1500)] :=
  ⟨(C7_aggregator_correct [Dim.year] c7Fixture).2.1 (by decide),
   (C7_aggregator_correct [Dim.year] c7Fixture).2.2 ["2023"] 1000 (by decide),
   by decide⟩

theorem reshapeCustomerType_year (t : RawTable) (y : String) (r : LongRecord)
    (hr : r ∈ reshapeCustomerType t y) : r.year = y := by
  unfold reshapeCustomerType at hr
  simp only [List.mem_flatMap, List.mem_map] at hr
  obtain ⟨p, _, r', _, heq⟩ := hr
  rw [← heq]

theorem reshapePurchases_year (t : RawTable) (y : String) (r : LongRecord)
    (hr : r ∈ reshapePurchases t y) : r.year = y := by
  unfold reshapePurchases at hr
  simp only [List.mem_flatMap, List.mem_map] at hr
  obtain ⟨p, _, r', _, heq⟩ := hr
  rw [← heq]

theorem reshapeCustomer_year (t : RawTable) (y : String) (r : LongRecord)
    (hr : r ∈ reshapeCustomer t y) : r.year = y := by
  unfold reshapeCustomer at hr
  dsimp only at hr
  split at hr
  · simp only [List.mem_map] at hr
    obtain ⟨r', _, heq⟩ := hr
    rw [← heq]
  · simp only [List.mem_flatMap, List.mem_map] at hr
    obtain ⟨p, _, r', _, heq⟩ := hr
    rw [← heq]

/-- C8: Merger order-independence — every reshaper stamps each emitted
record with its own `year` tag verbatim, and concatenating per-year
record lists in either order gives permutation-equal aggregation
results for any choice of grouping dimensions (summation is
commutative/associative and grouping is by key, not position). -/
theorem C8_merger_order_independent :
    (∀ (t : RawTable) (y : String) (r : LongRecord),
        r ∈ reshapeCustomerType t y → r.year = y) ∧
    (∀ (t : RawTable) (y : String) (r : LongRecord),
        r ∈ reshapePurchases t y → r.year = y) ∧
    (∀ (t : RawTable) (y : String) (r : LongRecord),
        r ∈ reshapeCustomer t y → r.year = y) ∧
    (∀ (dims : List Dim) (l1 l2 : List LongRecord),
        List.Perm (groupByDims dims (l1 ++ l2)) (groupByDims dims (l2 ++ l1))) :=
  ⟨reshapeCustomerType_year, reshapePurchases_year, reshapeCustomer_year,
   fun dims _ _ => groupByDims_perm dims List.perm_append_comm⟩

/-- Witness for C8 at a concrete table and concrete two-record lists. -/
theorem C8_witness :
    (⟨"Acme", some "Jan", "2023", (10 : ℚ)⟩ : LongRecord).year = "2023" ∧
    List.Perm
      (groupByDims [Dim.entity]
        ([⟨"A", some "Jan", "2023", 1⟩] ++ [⟨"B", some "Feb", "2024", 2⟩]))
      (groupByDims [Dim.entity]
        ([⟨"B", some "Feb", "2024", 2⟩] ++ [⟨"A", some "Jan", "2023", 1⟩])) :=
  ⟨C8_merger_order_independent.1 ⟨["Jan"], [("Acme", ["10"])]⟩ "2023" _ (by decide),
   C8_merger_order_independent.2.2.2 [Dim.entity] _ _⟩

/-- C9: in `load_customer_sales_long`, alias collapsing runs before the
total-row filter: the raw label `"Total Childrens Hospital of Los
Angeles"` is first renamed to the canonical customer, therefore
survives the `!= "TOTAL"` filter, and its values are summed into the
totals of that customer (here `100 + 50 = 150`). -/
theorem C9_alias_before_total_filter :
    normalizeCustomer "Total Childrens Hospital of Los Angeles"
        = "Childrens Hospital of Los Angeles" ∧
    (pyUpper (normalizeCustomer "Total Childrens Hospital of Los Angeles")
        != "TOTAL") = true ∧
    groupByDims [Dim.entity] (loadCustomerSalesLong [("2023", chlaTable)])
        = [(["Childrens Hospital of Los Angeles"], 150)] := by decide

/-- C10: every record returned by `load_customer_sales_long` and by
`load_purchases_long` has a nonempty entity label, for every
combination of input tables — rows with an empty entity are filtered
out after the per-year tables are concatenated. -/
theorem C10_nonempty_entity (inputs : List (String × RawTable))
    (r : LongRecord) :
    (r ∈ loadCustomerSalesLong inputs → r.entity ≠ "") ∧
    (r ∈ loadPurchasesLong inputs → r.entity ≠ "") := by
  constructor
  · intro hr
    unfold loadCustomerSalesLong at hr
    have := (List.mem_filter.mp hr).2
    simpa using this
  · intro hr
    unfold loadPurchasesLong at hr
    have := (List.mem_filter.mp hr).2
    simpa using this

/-- Witness for C10: the record produced from a one-row table has a
nonempty entity. -/
theorem C10_witness :
    (⟨"Acme", some "Jan", "2023", (10 : ℚ)⟩ : LongRecord).entity ≠ "" :=
  (C10_nonempty_entity [("2023", ⟨["Jan"], [("Acme", ["10"])]⟩)]
    ⟨"Acme", some "Jan", "2023", 10⟩).1 (by decide)

/-- C4 (counterexample): in the melt-based loaders the claim fails on
both counts — the label `"JAN-2023"` is truncated to `"JAN"` without
case normalization and so does not land in the canonical `"Jan"`
bucket, and the values of a non-month column `"Q1"` are not excluded:
they are emitted as a LongRecord (with null month) and flow into the
year-level aggregate, which sums to 60, not 10. -/
theorem C4_counterexample :
    catMonth "JAN-2023" = none ∧
    reshapeCustomerType c4Table "2023" =
      [⟨"Acme", some "Jan", "2023", 10⟩, ⟨"Acme", none, "2023", 50⟩] ∧
    groupByDims [Dim.year] (reshapeCustomerType c4Table "2023")
      = [(["2023"], 60)] := by decide

/-- C4 (amended): month labels are normalized to their first three
characters and validated against the 12 canonical abbreviations, but
only `_month3` in `Sales_By_Item` title-cases them — there
`"Jan 23"`, `"JAN-2023"` and `"January"` all reach the `"Jan"` bucket
while `"Q1"` is rejected, and in its block-format path the values of
the rejected column never appear in any record.  In the melt-based loaders
the prefix is taken verbatim, so `"JAN-2023"` fails validation; a
non-month column is still melted — its values appear as records with a
null month, excluded from month-keyed aggregates but counted in year
totals — and in the carry-forward path of `Sales_By_Item` a non-month
column inherits the preceding month label.  The month-keyed aggregate
of the Q1 table has the pandas `observed=False` shape: the Jan bucket
holds 10, the other eleven canonical months are zero-filled, and no
bucket receives the Q1 value 50. -/
theorem C4_month_normalization :
    _month3 "Jan 23" = "Jan" ∧
    _month3 "JAN-2023" = "Jan" ∧
    _month3 "January" = "Jan" ∧
    _month3 "Q1" = "" ∧
    catMonth "Jan 23" = some "Jan" ∧
    catMonth "JAN-2023" = none ∧
    catMonth "January" = some "Jan" ∧
    catMonth "Q1" = none ∧
    parse_qb_records qbBlockRows "2023" = [⟨"Widget", "2023", "Jan", 5, 100⟩] ∧
    parse_qb_records qbCarryRows "2023" = [⟨"W", "2023", "Jan", 5, 700⟩] ∧
    groupByDims [Dim.year, Dim.month] (reshapeCustomerType c4Table "2023")
      = [(["2023", "Jan"], 10), (["2023", "Feb"], 0), (["2023", "Mar"], 0),
         (["2023", "Apr"], 0), (["2023", "May"], 0), (["2023", "Jun"], 0),
         (["2023", "Jul"], 0), (["2023", "Aug"], 0), (["2023", "Sep"], 0),
         (["2023", "Oct"], 0), (["2023", "Nov"], 0), (["2023", "Dec"], 0)]
      := by decide

/-- C6 (counterexample): the loaders of `app.py` and
`purchase_orders.py` call bare `pd.read_csv`, which attempts only
UTF-8: on the byte `0xE9` (a Windows-1252 `é`) they fail even though
the fallback chain of the other pages decodes it, so "every file
loader attempts the ordered encoding list" is false. -/
theorem C6_counterexample :
    appLoaderDecode [233] = none ∧ fallbackDecode [233] = some [233] := by decide

/-- C6 (amended): `read_csv_safe` and the `Sales_By_Item` reader attempt
UTF-8, UTF-8-sig, Windows-1252, Latin-1 in order, succeeding with the
first encoding that decodes (so if UTF-8 succeeds its result is used);
since Latin-1 decodes every byte sequence, the decode step itself never
fails, and the `Sales_By_Item` loader is fatal exactly when the parsed
file has fewer than 3 rows.  The `app.py` and `purchase_orders.py`
loaders attempt only UTF-8. -/
theorem C6_encoding_fallback :
    (∀ (bs s : List Nat), utf8Decode? bs = some s → fallbackDecode bs = some s) ∧
    (∀ bs : List Nat, (fallbackDecode bs).isSome = true) ∧
    (∀ rows : List (List String), qbLoadFatal rows = true ↔ rows.length < 3) := by
  refine ⟨?_, ?_, ?_⟩
  · intro bs s h
    unfold fallbackDecode
    rw [h]
  · intro bs
    unfold fallbackDecode
    rcases h1 : utf8Decode? bs with _ | s1
    · rcases h2 : utf8SigDecode? bs with _ | s2
      · rcases h3 : cp1252Decode? bs with _ | s3 <;> simp
      · simp
    · simp
  · intro rows
    cases rows <;> simp [qbLoadFatal]

/-- Witness for C6 at concrete byte lists and a concrete two-row
file. -/
theorem C6_witness :
    fallbackDecode [72] = some [72] ∧
    (fallbackDecode [233]).isSome = true ∧
    (qbLoadFatal [["a"], ["b"]] = true ↔ ([["a"], ["b"]] : List (List String)).length < 3) :=
  ⟨C6_encoding_fallback.1 [72] [72] (by decide),
   C6_encoding_fallback.2.1 [233],
   C6_encoding_fallback.2.2 [["a"], ["b"]]⟩
